import Mathlib

/-!
Shallow embedding of juniorprincewang/EGLOffScreenRendering.

The repository holds two closely related programs:
  * `src/offscreen_egl.cpp`  — single-context offscreen render-and-readback;
  * `src/multithreads.cpp`   — two worker threads sharing one EGL display.

Pure helpers (`glUtilsPixelBitSize`, `pixelDataSize`, the inline readback
stride computation, `LoadShader`) are embedded as Lean functions; the
error-check helpers and the teardown / coordinator control flow are embedded
as explicit small-step interpreters over state types, with the printf output
modelled as lists of `Diag` values and process termination (`exit(-1)`) as a
Boolean flag. GL enumerants are embedded as their numeric values from the
Khronos headers. Machine integers are modelled as `Nat`/`Int`; the values
manipulated by the embedded code paths stay far below 2^31, where C `int`,
`size_t` and mathematical integers agree.
-/

namespace EGLOff

/-! ### GL / EGL enumerant values (from the Khronos GLES2/EGL headers) -/

def GL_BYTE : Nat := 0x1400

def GL_UNSIGNED_BYTE : Nat := 0x1401

def GL_SHORT : Nat := 0x1402

def GL_UNSIGNED_SHORT : Nat := 0x1403

def GL_INT : Nat := 0x1404

def GL_UNSIGNED_INT : Nat := 0x1405

def GL_FLOAT : Nat := 0x1406

def GL_FIXED : Nat := 0x140C

def GL_UNSIGNED_SHORT_4_4_4_4 : Nat := 0x8033

def GL_UNSIGNED_SHORT_5_5_5_1 : Nat := 0x8034

def GL_UNSIGNED_SHORT_5_6_5 : Nat := 0x8363

def GL_RGB565_OES : Nat := 0x8D62

def GL_RGB5_A1_OES : Nat := 0x8057

def GL_RGBA4_OES : Nat := 0x8056

def GL_UNSIGNED_INT_24_8_OES : Nat := 0x84FA

def GL_ALPHA : Nat := 0x1906

def GL_RGB : Nat := 0x1907

def GL_RGBA : Nat := 0x1908

def GL_LUMINANCE : Nat := 0x1909

def GL_LUMINANCE_ALPHA : Nat := 0x190A

def GL_DEPTH_COMPONENT : Nat := 0x1902

def GL_DEPTH_STENCIL_OES : Nat := 0x84F9

def GL_BGRA_EXT : Nat := 0x80E1

def GL_NO_ERROR : Nat := 0

def EGL_SUCCESS : Nat := 0x3000

def EGL_BAD_ALLOC : Nat := 0x3003

def EGL_BAD_SURFACE : Nat := 0x300D

def EGL_NONE : Int := 0x3038

def EGL_CONTEXT_CLIENT_VERSION : Int := 0x3098

/-! ### Diagnostics

Each `printf` diagnostic of the two programs is modelled as a `Diag` value
carrying exactly the data the format string interpolates. -/

/-- One diagnostic line printed by the programs. -/
inductive Diag where
  /-- `printf("EGL error %#04x at %s\n", error, msg)` -/
  | eglError (code : Nat) (label : String)
  /-- `printf("OpenGL error %#04x at %s\n", error, msg)` -/
  | glError (code : Nat) (label : String)
  /-- `printf("glUtilsPixelBitSize: unknown pixel type - assuming pixel data 0\n")` -/
  | unknownPixelType
  /-- `printf("glUtilsPixelBitSize: unknown pixel format...\n")` -/
  | unknownPixelFormat
  /-- `printf("Error compiling shader:\n%s\n", infoLog)` -/
  | compileErrorLog (log : String)
  deriving DecidableEq, Repr

/-! ### Pixel Format Helper (src/offscreen_egl.cpp lines 68–154) -/

/-- The byte-sized `type` cases of the first `switch` in `glUtilsPixelBitSize`
(`GL_BYTE`, `GL_UNSIGNED_BYTE`), which set `componentsize = 8`. -/
def byteSizedType (t : Nat) : Bool :=
  t = GL_BYTE || t = GL_UNSIGNED_BYTE

/-- The 16-bit `type` cases of the first `switch` in `glUtilsPixelBitSize`,
which set `pixelsize = 16`. -/
def shortOrPacked16Type (t : Nat) : Bool :=
  t = GL_SHORT || t = GL_UNSIGNED_SHORT || t = GL_UNSIGNED_SHORT_5_6_5 ||
  t = GL_UNSIGNED_SHORT_4_4_4_4 || t = GL_UNSIGNED_SHORT_5_5_5_1 ||
  t = GL_RGB565_OES || t = GL_RGB5_A1_OES || t = GL_RGBA4_OES

/-- The 32-bit `type` cases of the first `switch` in `glUtilsPixelBitSize`,
which set `pixelsize = 32`. -/
def intOrFloat32Type (t : Nat) : Bool :=
  t = GL_INT || t = GL_UNSIGNED_INT || t = GL_FLOAT || t = GL_FIXED ||
  t = GL_UNSIGNED_INT_24_8_OES

/-- All `type` values recognized by the first `switch` (anything else falls to
its `default:` branch). -/
def recognizedPixelType (t : Nat) : Bool :=
  byteSizedType t || shortOrPacked16Type t || intOrFloat32Type t

/-- The `format` values recognized by the second `switch` of
`glUtilsPixelBitSize` (anything else falls to its `default:` branch). -/
def recognizedPixelFormat (f : Nat) : Bool :=
  f = GL_ALPHA || f = GL_LUMINANCE || f = GL_DEPTH_COMPONENT ||
  f = GL_DEPTH_STENCIL_OES || f = GL_LUMINANCE_ALPHA || f = GL_RGB ||
  f = GL_RGBA || f = GL_BGRA_EXT

/-- The `components` value assigned by the second `switch` of
`glUtilsPixelBitSize` (src/offscreen_egl.cpp lines 101–129); `default:` sets 0. -/
def formatComponents (f : Nat) : Nat :=
  if f = GL_ALPHA || f = GL_LUMINANCE || f = GL_DEPTH_COMPONENT ||
     f = GL_DEPTH_STENCIL_OES then 1
  else if f = GL_LUMINANCE_ALPHA then 2
  else if f = GL_RGB then 3
  else if f = GL_RGBA || f = GL_BGRA_EXT then 4
  else 0

/-- `glUtilsPixelBitSize` (src/offscreen_egl.cpp lines 68–134): bits per pixel
for a format/type pair. The first `switch` on `type` either fixes the whole
`pixelsize` (16- and 32-bit cases) or only `componentsize` (byte cases, 8;
`default:`, 0). When `pixelsize` is still 0 the second `switch` on `format`
supplies the channel count and `pixelsize = components * componentsize`. -/
def glUtilsPixelBitSize (format type : Nat) : Nat :=
  let componentsize : Nat := if byteSizedType type then 8 else 0
  let pixelsize : Nat :=
    if shortOrPacked16Type type then 16
    else if intOrFloat32Type type then 32
    else 0
  if pixelsize = 0 then
    formatComponents format * componentsize
  else pixelsize

/-- The diagnostics printed by `glUtilsPixelBitSize` on the same control path:
the `default:` of the `type` switch prints `unknown pixel type`, and — when the
`format` switch is reached — its `default:` prints `unknown pixel format`. -/
def glUtilsPixelBitSizeMsgs (format type : Nat) : List Diag :=
  let typeMsgs : List Diag :=
    if recognizedPixelType type then [] else [Diag.unknownPixelType]
  let pixelsize : Nat :=
    if shortOrPacked16Type type then 16
    else if intOrFloat32Type type then 32
    else 0
  if pixelsize = 0 then
    typeMsgs ++ (if recognizedPixelFormat format then [] else [Diag.unknownPixelFormat])
  else typeMsgs

/-- `pixelDataSize` (src/offscreen_egl.cpp lines 136–154). Negative or zero
dimensions return 0 before `format`/`type` are consulted; otherwise
`pixelsize = glUtilsPixelBitSize(format, type) >> 3`, the raw line size is
rounded up to the fixed `alignment = 4`, and the aligned line size is
multiplied by the height. `width`/`height` are C `int` (`GLsizei`), modelled
as `Int`; past the positivity guard the C conversion of `pixelsize * width`
to `size_t` is value-preserving, modelled with `width.toNat`. -/
def pixelDataSize (width height : Int) (format type : Nat) : Int :=
  if width ≤ 0 ∨ height ≤ 0 then 0
  else
    let pixelsize : Nat := glUtilsPixelBitSize format type >>> 3
    let alignment : Nat := 4
    let linesize : Nat := pixelsize * width.toNat
    let aligned_linesize : Nat := linesize / alignment * alignment
    let aligned_linesize : Nat :=
      if aligned_linesize < linesize then aligned_linesize + alignment
      else aligned_linesize
    (aligned_linesize : Int) * height

/-! ### Inline readback buffer sizing

The same three lines appear in all render paths:
src/offscreen_egl.cpp lines 417–420 (`main`),
src/multithreads.cpp lines 339–342 (`thread_func_a`) and
lines 538–541 (`thread_func_b`):
`nr_channels = 4; stride = nr_channels * width;`
`stride += (stride % 4) ? (4 - stride % 4) : 0;`
`bufferSize = stride * height;` -/

/-- The readback row stride of the render paths. -/
def inlineReadbackStride (width : Int) : Int :=
  let nr_channels : Int := 4
  let stride : Int := nr_channels * width
  stride + (if stride % 4 ≠ 0 then 4 - stride % 4 else 0)

/-- The readback buffer size of the render paths. -/
def inlineReadbackBufferSize (width height : Int) : Int :=
  inlineReadbackStride width * height

/-! ### Error-check helpers

Both programs define `assertOpenGLError` / `assertEGLError`, taking the last
driver error and a call-site label. The single-context variant
(src/offscreen_egl.cpp lines 50–66) only prints on error; the multithreaded
variant (src/multithreads.cpp lines 58–76) prints and then calls `exit(-1)`.
A check's outcome is its printed diagnostics plus whether it terminated the
process. -/

/-- Outcome of one error check: printed diagnostics and whether `exit(-1)`
was reached. -/
structure CheckResult where
  msgs : List Diag
  exited : Bool
  deriving DecidableEq, Repr

namespace Offscreen

/-- `assertOpenGLError` of src/offscreen_egl.cpp (lines 50–57): print the
error code and label if there is an error; never terminates. -/
def assertOpenGLError (error : Nat) (msg : String) : CheckResult :=
  if error ≠ GL_NO_ERROR then ⟨[Diag.glError error msg], false⟩ else ⟨[], false⟩

/-- `assertEGLError` of src/offscreen_egl.cpp (lines 59–66): print the error
code and label if there is an error; never terminates. -/
def assertEGLError (error : Nat) (msg : String) : CheckResult :=
  if error ≠ EGL_SUCCESS then ⟨[Diag.eglError error msg], false⟩ else ⟨[], false⟩

end Offscreen

namespace MT

/-- `assertOpenGLError` of src/multithreads.cpp (lines 58–66): print the
error code and label and `exit(-1)` if there is an error. -/
def assertOpenGLError (error : Nat) (msg : String) : CheckResult :=
  if error ≠ GL_NO_ERROR then ⟨[Diag.glError error msg], true⟩ else ⟨[], false⟩

/-- `assertEGLError` of src/multithreads.cpp (lines 68–76): print the error
code and label and `exit(-1)` if there is an error. -/
def assertEGLError (error : Nat) (msg : String) : CheckResult :=
  if error ≠ EGL_SUCCESS then ⟨[Diag.eglError error msg], true⟩ else ⟨[], false⟩

end MT

/-! ### Teardown sequences

The teardown code of each path is a straight-line sequence of driver calls;
the GL object deletions are not followed by any check, while the EGL
destruction calls are each followed by `assertEGLError`. A teardown run is
interpreted against an environment giving the EGL error code observed after
each labelled call. -/

/-- One teardown step: a driver call with no error check after it, or a call
followed by `assertEGLError(label)`. -/
inductive TStep where
  | unchecked (label : String)
  | eglChecked (label : String)
  deriving DecidableEq, Repr

/-- Result of running a teardown sequence: the labels of the calls that were
actually issued (in order), the diagnostics printed, and whether the process
exited part-way. -/
structure TeardownResult where
  performed : List String
  msgs : List Diag
  exited : Bool
  deriving DecidableEq, Repr

/-- Run a teardown sequence. `check` is the variant's `assertEGLError`;
`env label` is the EGL error code the driver reports after the call `label`.
A step whose check terminates the process stops the run. -/
def runTeardown (check : Nat → String → CheckResult) (env : String → Nat) :
    List TStep → TeardownResult
  | [] => ⟨[], [], false⟩
  | TStep.unchecked l :: rest =>
      let r := runTeardown check env rest
      ⟨l :: r.performed, r.msgs, r.exited⟩
  | TStep.eglChecked l :: rest =>
      let c := check (env l) l
      if c.exited then ⟨[l], c.msgs, true⟩
      else
        let r := runTeardown check env rest
        ⟨l :: r.performed, c.msgs ++ r.msgs, r.exited⟩

/-- Teardown sequence of `main` in src/offscreen_egl.cpp (lines 434–448):
unbind and delete the GL objects (unchecked), then destroy surface, destroy
context and terminate the display, each followed by `assertEGLError`. -/
def offscreenTeardownSteps : List TStep :=
  [TStep.unchecked "glBindFramebuffer",
   TStep.unchecked "glDeleteFramebuffers",
   TStep.unchecked "glDeleteTextures",
   TStep.eglChecked "eglDestroySurface",
   TStep.eglChecked "eglDestroyContext",
   TStep.eglChecked "eglTerminate"]

/-- Teardown sequence of `thread_func_a` in src/multithreads.cpp (lines
443–450): delete the GL objects (unchecked), then destroy surface and destroy
context, each followed by `assertEGLError`. (`eglTerminate` is compiled out
by `#if 0`.) -/
def mtThreadATeardownSteps : List TStep :=
  [TStep.unchecked "glDeleteFramebuffers",
   TStep.unchecked "glDeleteTextures",
   TStep.unchecked "glDeleteProgram",
   TStep.unchecked "glDeleteTextures",
   TStep.eglChecked "eglDestroySurface",
   TStep.eglChecked "eglDestroyContext"]

/-- Error environment in which the driver reports `EGL_BAD_SURFACE` after
`eglDestroySurface` and success everywhere else. -/
def envBadSurface : String → Nat :=
  fun l => if l = "eglDestroySurface" then EGL_BAD_SURFACE else EGL_SUCCESS

/-! ### LoadShader (src/offscreen_egl.cpp lines 160–194 and, identically,
src/multithreads.cpp lines 82–116) -/

/-- The driver responses observed by one `LoadShader` call: the handle
returned by `glCreateShader`, the `GL_COMPILE_STATUS` after
`glCompileShader`, and the `GL_INFO_LOG_LENGTH` / info-log text. -/
structure ShaderCallEnv where
  shaderHandle : Nat
  compiled : Bool
  infoLogLen : Int
  infoLog : String
  deriving DecidableEq, Repr

/-- Result of a `LoadShader` call: the returned handle, whether
`glDeleteShader` was called on the stage object, and the diagnostics
printed. -/
structure LoadShaderResult where
  ret : Nat
  deletedShader : Bool
  msgs : List Diag
  deriving DecidableEq, Repr

/-- `LoadShader(type, shaderSrc)`: returns 0 if `glCreateShader` failed;
otherwise compiles, and on compile failure retrieves and prints the info log
only when `infoLen > 1`, deletes the shader and returns 0; on success returns
the shader handle. -/
def LoadShader (env : ShaderCallEnv) : LoadShaderResult :=
  let shader := env.shaderHandle
  if shader = 0 then ⟨0, false, []⟩
  else if env.compiled = false then
    let msgs : List Diag :=
      if env.infoLogLen > 1 then [Diag.compileErrorLog env.infoLog] else []
    ⟨0, true, msgs⟩
  else ⟨shader, false, []⟩

/-! ### Session A's render loop (src/multithreads.cpp lines 382–442)

`thread_func_a` sets `int mRunning = 1;` and loops `while (mRunning)`; every
statement of the body issues GL/EGL calls, prints, or writes `img.png` — none
assigns to `mRunning`. The state tracks the guard variable and the number of
frames written; the loop is run with explicit fuel, returning `some` of the
state at loop exit (where the teardown code would start) and `none` when the
fuel is exhausted with the loop still running. -/

/-- The local state of `thread_func_a` that the loop can observe or change. -/
structure ThreadAState where
  mRunning : Int
  framesWritten : Nat
  deriving DecidableEq, Repr

/-- State at `int mRunning = 1;` just before the loop. -/
def threadALoopInit : ThreadAState := ⟨1, 0⟩

/-- One iteration of the `while (mRunning)` body: bind framebuffer, draw,
read back, write `img.png` (counted), unbind. No statement assigns to
`mRunning`. -/
def threadALoopBody (s : ThreadAState) : ThreadAState :=
  { s with framesWritten := s.framesWritten + 1 }

/-- Run the `while (mRunning)` loop with the given fuel: `some s` when the
guard fails after finitely many iterations (control reaches the teardown
code with state `s`), `none` when the fuel runs out with the loop still
spinning. -/
def threadALoopRun : Nat → ThreadAState → Option ThreadAState
  | 0, _ => none
  | fuel + 1, s =>
      if s.mRunning ≠ 0 then threadALoopRun fuel (threadALoopBody s)
      else some s

/-! ### Concurrent Session Coordinator (src/multithreads.cpp lines 660–668)

`main` runs: `pthread_create(threadA); sleep(0.5); pthread_create(threadB);
pthread_join(threadA); pthread_join(threadB); eglTerminate(display);`.
`sleep` takes `unsigned int` seconds, so the C `double` literal `0.5` is
converted by truncation toward zero. -/

/-- One coordinator event of `main` in src/multithreads.cpp. -/
inductive CoordEvent where
  | startA
  | sleepSec (n : Nat)
  | startB
  | joinA
  | joinB
  | terminateDisplay
  deriving DecidableEq, Repr

/-- C conversion of a non-negative `double` value (modelled as `ℚ`) to
`unsigned int`: truncation toward zero, which for non-negative values is the
floor. -/
def cDoubleToUnsigned (q : ℚ) : Nat := (⌊q⌋).toNat

/-- The coordinator's event trace: start A, `sleep(0.5)`, start B, join A,
join B, terminate the display (src/multithreads.cpp lines 661–667). -/
def mtCoordinatorTrace : List CoordEvent :=
  [CoordEvent.startA,
   CoordEvent.sleepSec (cDoubleToUnsigned (0.5 : ℚ)),
   CoordEvent.startB,
   CoordEvent.joinA,
   CoordEvent.joinB,
   CoordEvent.terminateDisplay]

/-! ### Context-creation attribute lists -/

/-- Look up the value of attribute `key` in an EGL attribute list
(`key, value` pairs terminated by `EGL_NONE`). -/
def attribValue : List Int → Int → Option Int
  | a :: v :: rest, key =>
      if a = EGL_NONE then none
      else if a = key then some v
      else attribValue rest key
  | _, _ => none

/-- `es_version` in `main` of src/offscreen_egl.cpp (line 298). -/
def offscreen_es_version : Int := 3

namespace Offscreen

/-- `contextAttribs` passed to `eglCreateContext` in `main` of
src/offscreen_egl.cpp (lines 336–339). -/
def contextAttribs : List Int :=
  [EGL_CONTEXT_CLIENT_VERSION, offscreen_es_version, EGL_NONE]

end Offscreen

namespace MT

/-- `contextAttribs` passed to `eglCreateContext` in `thread_func_a` of
src/multithreads.cpp (lines 286–289). -/
def threadA_contextAttribs : List Int :=
  [EGL_CONTEXT_CLIENT_VERSION, 2, EGL_NONE]

/-- `contextAttribs` passed to `eglCreateContext` in `thread_func_b` of
src/multithreads.cpp (lines 470–473). -/
def threadB_contextAttribs : List Int :=
  [EGL_CONTEXT_CLIENT_VERSION, 2, EGL_NONE]

end MT

/-! ## Helper lemmas -/

/-- The rounding step of `pixelDataSize` produces the least multiple of 4
that is at least the raw line size. -/
theorem roundUp4_facts (L : Nat) :
    4 ∣ (if L / 4 * 4 < L then L / 4 * 4 + 4 else L / 4 * 4) ∧
    L ≤ (if L / 4 * 4 < L then L / 4 * 4 + 4 else L / 4 * 4) ∧
    ∀ m : Nat, 4 ∣ m → L ≤ m →
      (if L / 4 * 4 < L then L / 4 * 4 + 4 else L / 4 * 4) ≤ m := by
  refine ⟨?_, ?_, ?_⟩
  · split <;> omega
  · split <;> omega
  · intro m hm hLm
    split <;> omega

/-- On positive dimensions, `pixelDataSize` is the round-up of
`bytes * width` to a multiple of 4, times the height. -/
theorem pixelDataSize_pos_eq (w h : Int) (f t : Nat) (hw : 0 < w) (hh : 0 < h) :
    pixelDataSize w h f t =
      ((if glUtilsPixelBitSize f t / 8 * w.toNat / 4 * 4 <
            glUtilsPixelBitSize f t / 8 * w.toNat
          then glUtilsPixelBitSize f t / 8 * w.toNat / 4 * 4 + 4
          else glUtilsPixelBitSize f t / 8 * w.toNat / 4 * 4 : Nat) : Int) * h := by
  have hguard : ¬(w ≤ 0 ∨ h ≤ 0) := by omega
  have hshift : glUtilsPixelBitSize f t >>> 3 = glUtilsPixelBitSize f t / 8 := by
    simp [Nat.shiftRight_eq_div_pow]
  simp only [pixelDataSize, hshift]
  rw [if_neg hguard]

/-- An unrecognized `format` falls through to the `default:` branch of the
second `switch`, setting `components = 0`. -/
theorem formatComponents_eq_zero (f : Nat) (hf : recognizedPixelFormat f = false) :
    formatComponents f = 0 := by
  simp only [recognizedPixelFormat, Bool.or_eq_false_iff,
    decide_eq_false_iff_not] at hf
  obtain ⟨⟨⟨⟨⟨⟨⟨h1, h2⟩, h3⟩, h4⟩, h5⟩, h6⟩, h7⟩, h8⟩ := hf
  simp [formatComponents, h1, h2, h3, h4, h5, h6, h7, h8]

/-- A byte-sized `type` is not one of the 16-bit cases of the first switch. -/
theorem shortOrPacked16_false_of_byteSized (t : Nat) (hb : byteSizedType t = true) :
    shortOrPacked16Type t = false := by
  simp only [byteSizedType, Bool.or_eq_true, decide_eq_true_eq] at hb
  rcases hb with rfl | rfl <;> decide

/-- A byte-sized `type` is not one of the 32-bit cases of the first switch. -/
theorem intOrFloat32_false_of_byteSized (t : Nat) (hb : byteSizedType t = true) :
    intOrFloat32Type t = false := by
  simp only [byteSizedType, Bool.or_eq_true, decide_eq_true_eq] at hb
  rcases hb with rfl | rfl <;> decide

/-! ## Claims -/

/-- C1: for every width > 0 and height > 0 and every format/type pair,
`pixelDataSize` computes `bytes = bits_per_pixel / 8`, `line = bytes * width`,
rounds `line` up (never down) to the smallest multiple of 4 that is ≥ the raw
line size, and returns `aligned_line * height`; when width or height is zero
it returns 0. -/
theorem pixelDataSize_row_aligned :
    (∀ (w h : Int) (f t : Nat), 0 < w → 0 < h →
      ∃ aligned : Nat,
        pixelDataSize w h f t = (aligned : Int) * h ∧
        4 ∣ aligned ∧
        glUtilsPixelBitSize f t / 8 * w.toNat ≤ aligned ∧
        (∀ m : Nat, 4 ∣ m → glUtilsPixelBitSize f t / 8 * w.toNat ≤ m →
          aligned ≤ m)) ∧
    (∀ (w h : Int) (f t : Nat), w = 0 ∨ h = 0 → pixelDataSize w h f t = 0) := by
  constructor
  · intro w h f t hw hh
    obtain ⟨hdvd, hle, hmin⟩ := roundUp4_facts (glUtilsPixelBitSize f t / 8 * w.toNat)
    exact ⟨_, pixelDataSize_pos_eq w h f t hw hh, hdvd, hle, hmin⟩
  · intro w h f t hz
    have hguard : w ≤ 0 ∨ h ≤ 0 := by omega
    unfold pixelDataSize
    rw [if_pos hguard]

/-- Witness for C1 at width 5, height 3, `GL_RGB`/`GL_UNSIGNED_BYTE`
(raw line 15, aligned line 16, total 48) and zero width. -/
theorem pixelDataSize_row_aligned_witness :
    (∃ aligned : Nat,
      pixelDataSize 5 3 GL_RGB GL_UNSIGNED_BYTE = (aligned : Int) * 3 ∧
      4 ∣ aligned ∧
      glUtilsPixelBitSize GL_RGB GL_UNSIGNED_BYTE / 8 * (5 : Int).toNat ≤ aligned ∧
      (∀ m : Nat, 4 ∣ m →
        glUtilsPixelBitSize GL_RGB GL_UNSIGNED_BYTE / 8 * (5 : Int).toNat ≤ m →
        aligned ≤ m)) ∧
    pixelDataSize 0 7 GL_RGB GL_UNSIGNED_BYTE = 0 :=
  ⟨pixelDataSize_row_aligned.1 5 3 GL_RGB GL_UNSIGNED_BYTE (by decide) (by decide),
   pixelDataSize_row_aligned.2 0 7 GL_RGB GL_UNSIGNED_BYTE (Or.inl rfl)⟩

/-- C10: for every negative width or negative height, `pixelDataSize`
returns 0: the guard tests `width <= 0 || height <= 0`, so negative
dimensions take the early-return path and the format/type arguments are
never consulted there. -/
theorem pixelDataSize_negative_dims (w h : Int) (f t : Nat)
    (hneg : w < 0 ∨ h < 0) :
    pixelDataSize w h f t = 0 ∧
    ∀ f' t' : Nat, pixelDataSize w h f t = pixelDataSize w h f' t' := by
  have hguard : w ≤ 0 ∨ h ≤ 0 := by omega
  constructor
  · unfold pixelDataSize
    rw [if_pos hguard]
  · intro f' t'
    unfold pixelDataSize
    rw [if_pos hguard, if_pos hguard]

/-- Witness for C10 at width −3, height 5. -/
theorem pixelDataSize_negative_dims_witness :
    pixelDataSize (-3) 5 GL_RGBA GL_UNSIGNED_BYTE = 0 ∧
    pixelDataSize (-3) 5 GL_RGBA GL_UNSIGNED_BYTE =
      pixelDataSize (-3) 5 GL_RGB GL_FLOAT :=
  ⟨(pixelDataSize_negative_dims (-3) 5 GL_RGBA GL_UNSIGNED_BYTE
      (Or.inl (by decide))).1,
   (pixelDataSize_negative_dims (-3) 5 GL_RGBA GL_UNSIGNED_BYTE
      (Or.inl (by decide))).2 GL_RGB GL_FLOAT⟩

/-- C2: for every width > 0 and height > 0, the inline readback buffer sizing
of the render paths computes exactly the same value as
`pixelDataSize(width, height, GL_RGBA, GL_UNSIGNED_BYTE)`; in particular for
width = height = 512 both give stride 2048 and total 1 048 576. -/
theorem inlineReadback_matches_pixelDataSize :
    (∀ w h : Int, 0 < w → 0 < h →
      inlineReadbackBufferSize w h =
        pixelDataSize w h GL_RGBA GL_UNSIGNED_BYTE) ∧
    inlineReadbackStride 512 = 2048 ∧
    inlineReadbackBufferSize 512 512 = 1048576 ∧
    pixelDataSize 512 512 GL_RGBA GL_UNSIGNED_BYTE = 1048576 := by
  refine ⟨?_, by decide, by decide, by decide⟩
  intro w h hw hh
  have hwnat : ((w.toNat : Int)) = w := Int.toNat_of_nonneg hw.le
  have h32 : glUtilsPixelBitSize GL_RGBA GL_UNSIGNED_BYTE = 32 := by decide
  rw [pixelDataSize_pos_eq w h GL_RGBA GL_UNSIGNED_BYTE hw hh, h32]
  have hdiv : 32 / 8 * w.toNat / 4 * 4 = 32 / 8 * w.toNat := by omega
  rw [hdiv, if_neg (lt_irrefl _)]
  have hmod : (4 * w) % 4 = 0 := Int.mul_emod_right 4 w
  simp only [inlineReadbackBufferSize, inlineReadbackStride, hmod, ne_eq,
    not_true_eq_false, if_neg, ite_false]
  push_cast
  rw [hwnat]
  ring

/-- Witness for C2 at width 7, height 3. -/
theorem inlineReadback_matches_pixelDataSize_witness :
    inlineReadbackBufferSize 7 3 = pixelDataSize 7 3 GL_RGBA GL_UNSIGNED_BYTE :=
  inlineReadback_matches_pixelDataSize.1 7 3 (by decide) (by decide)

/-- C7: for every format/type pair where the type is unrecognized, or where
the type only fixes the component size (byte-sized cases) and the format is
unrecognized, `glUtilsPixelBitSize` returns 0 after emitting only
diagnostic output — the embedding is a total function with no termination
path — so callers must treat 0 as 'cannot allocate'. -/
theorem glUtilsPixelBitSize_unknown_returns_zero (f t : Nat)
    (h : recognizedPixelType t = false ∨
         (byteSizedType t = true ∧ recognizedPixelFormat f = false)) :
    glUtilsPixelBitSize f t = 0 ∧ glUtilsPixelBitSizeMsgs f t ≠ [] := by
  rcases h with hA | ⟨hb, hf⟩
  · have hparts := hA
    simp only [recognizedPixelType, Bool.or_eq_false_iff] at hparts
    obtain ⟨⟨hbyte, hshort⟩, hint⟩ := hparts
    constructor
    · simp [glUtilsPixelBitSize, hbyte, hshort, hint]
    · simp [glUtilsPixelBitSizeMsgs, hA, hshort, hint]
  · have hs := shortOrPacked16_false_of_byteSized t hb
    have hi := intOrFloat32_false_of_byteSized t hb
    constructor
    · simp [glUtilsPixelBitSize, hb, hs, hi, formatComponents_eq_zero f hf]
    · simp [glUtilsPixelBitSizeMsgs, recognizedPixelType, hb, hs, hi, hf]

/-- Witness for C7: an unknown type with a known format, and a known
byte-sized type with an unknown format. -/
theorem glUtilsPixelBitSize_unknown_returns_zero_witness :
    (glUtilsPixelBitSize GL_RGBA 0x1407 = 0 ∧
     glUtilsPixelBitSizeMsgs GL_RGBA 0x1407 ≠ []) ∧
    (glUtilsPixelBitSize 0x9999 GL_UNSIGNED_BYTE = 0 ∧
     glUtilsPixelBitSizeMsgs 0x9999 GL_UNSIGNED_BYTE ≠ []) :=
  ⟨glUtilsPixelBitSize_unknown_returns_zero GL_RGBA 0x1407 (Or.inl (by decide)),
   glUtilsPixelBitSize_unknown_returns_zero 0x9999 GL_UNSIGNED_BYTE
     (Or.inr ⟨by decide, by decide⟩)⟩

/-- C3 counterexample: in the single-context variant a failed setup call
(`eglCreateContext` reporting `EGL_BAD_ALLOC`) is only logged — the check
does not terminate the thread or process, refuting "fatal ... in both
program variants". -/
theorem offscreen_setup_error_nonfatal_cex :
    EGL_BAD_ALLOC ≠ EGL_SUCCESS ∧
    Offscreen.assertEGLError EGL_BAD_ALLOC "eglCreateContext" =
      ⟨[Diag.eglError EGL_BAD_ALLOC "eglCreateContext"], false⟩ := by
  decide

/-- C3 amended: every failed driver call detected by an error check reports
the driver error code and the failing call's label; in the multithreaded
variant the check then terminates the process, while in the single-context
variant the check never terminates and execution continues. -/
theorem assert_fatality_by_variant (e : Nat) (l : String) :
    (e ≠ EGL_SUCCESS →
      MT.assertEGLError e l = ⟨[Diag.eglError e l], true⟩ ∧
      Offscreen.assertEGLError e l = ⟨[Diag.eglError e l], false⟩) ∧
    (e ≠ GL_NO_ERROR →
      MT.assertOpenGLError e l = ⟨[Diag.glError e l], true⟩ ∧
      Offscreen.assertOpenGLError e l = ⟨[Diag.glError e l], false⟩) := by
  constructor <;> intro he <;>
    exact ⟨by simp [MT.assertEGLError, MT.assertOpenGLError, he],
           by simp [Offscreen.assertEGLError, Offscreen.assertOpenGLError, he]⟩

/-- Witness for the amended C3 at concrete error codes. -/
theorem assert_fatality_by_variant_witness :
    (MT.assertEGLError 0x3003 "eglCreateContext" =
       ⟨[Diag.eglError 0x3003 "eglCreateContext"], true⟩ ∧
     Offscreen.assertEGLError 0x3003 "eglCreateContext" =
       ⟨[Diag.eglError 0x3003 "eglCreateContext"], false⟩) ∧
    (MT.assertOpenGLError 0x0506 "glReadPixels" =
       ⟨[Diag.glError 0x0506 "glReadPixels"], true⟩ ∧
     Offscreen.assertOpenGLError 0x0506 "glReadPixels" =
       ⟨[Diag.glError 0x0506 "glReadPixels"], false⟩) :=
  ⟨(assert_fatality_by_variant 0x3003 "eglCreateContext").1 (by decide),
   (assert_fatality_by_variant 0x0506 "glReadPixels").2 (by decide)⟩

/-- C4 counterexample: in the multithreaded variant, an EGL error detected
after `eglDestroySurface` during `thread_func_a`'s teardown terminates the
process, so `eglDestroyContext` is never reached — refuting "non-fatal ...
in both program variants". -/
theorem mt_teardown_abort_cex :
    (runTeardown MT.assertEGLError envBadSurface mtThreadATeardownSteps).exited =
      true ∧
    "eglDestroyContext" ∉
      (runTeardown MT.assertEGLError envBadSurface mtThreadATeardownSteps).performed ∧
    (runTeardown MT.assertEGLError envBadSurface mtThreadATeardownSteps).msgs =
      [Diag.eglError EGL_BAD_SURFACE "eglDestroySurface"] := by
  decide

/-- C4 amended: in the single-context variant every teardown step runs
whatever errors the driver reports (errors are only logged, never fatal);
in the multithreaded variant a detected teardown error terminates the
process and the remaining steps are skipped. GL object deletions are not
error-checked in either variant. -/
theorem teardown_error_policy_by_variant :
    (∀ env : String → Nat,
      (runTeardown Offscreen.assertEGLError env offscreenTeardownSteps).performed =
        ["glBindFramebuffer", "glDeleteFramebuffers", "glDeleteTextures",
         "eglDestroySurface", "eglDestroyContext", "eglTerminate"] ∧
      (runTeardown Offscreen.assertEGLError env offscreenTeardownSteps).exited =
        false) ∧
    ((runTeardown MT.assertEGLError envBadSurface mtThreadATeardownSteps).exited =
       true ∧
     (runTeardown MT.assertEGLError envBadSurface mtThreadATeardownSteps).performed =
       ["glDeleteFramebuffers", "glDeleteTextures", "glDeleteProgram",
        "glDeleteTextures", "eglDestroySurface"]) := by
  constructor
  · intro env
    have hex : ∀ e l, (Offscreen.assertEGLError e l).exited = false := by
      intro e l
      unfold Offscreen.assertEGLError
      split <;> rfl
    constructor <;> simp [runTeardown, offscreenTeardownSteps, hex]
  · exact ⟨by decide, by decide⟩

/-- Witness for the amended C4 at a concrete error environment. -/
theorem teardown_error_policy_by_variant_witness :
    (runTeardown Offscreen.assertEGLError envBadSurface offscreenTeardownSteps).performed =
      ["glBindFramebuffer", "glDeleteFramebuffers", "glDeleteTextures",
       "eglDestroySurface", "eglDestroyContext", "eglTerminate"] ∧
    (runTeardown Offscreen.assertEGLError envBadSurface offscreenTeardownSteps).exited =
      false :=
  teardown_error_policy_by_variant.1 envBadSurface

/-- C5 (code slip): the coordinator's trace is start A, sleep, start B,
join A, join B, terminate the display exactly once at the very end — but the
delay between the two starts is 0 seconds, because the `double` argument
`0.5` of `sleep` is truncated to the `unsigned int` 0. -/
theorem mt_coordinator_sleep_zero :
    cDoubleToUnsigned (0.5 : ℚ) = 0 ∧
    mtCoordinatorTrace =
      [CoordEvent.startA, CoordEvent.sleepSec 0, CoordEvent.startB,
       CoordEvent.joinA, CoordEvent.joinB, CoordEvent.terminateDisplay] ∧
    mtCoordinatorTrace.count CoordEvent.terminateDisplay = 1 ∧
    mtCoordinatorTrace.getLast? = some CoordEvent.terminateDisplay := by
  have h0 : cDoubleToUnsigned (0.5 : ℚ) = 0 := by norm_num [cDoubleToUnsigned]
  have htrace : mtCoordinatorTrace =
      [CoordEvent.startA, CoordEvent.sleepSec 0, CoordEvent.startB,
       CoordEvent.joinA, CoordEvent.joinB, CoordEvent.terminateDisplay] := by
    unfold mtCoordinatorTrace
    rw [h0]
  exact ⟨h0, htrace, by rw [htrace]; decide, by rw [htrace]; decide⟩

/-- C6: Session A's render loop has no exit condition: `mRunning` starts
at 1, no statement of the body changes it, and for any amount of fuel the
loop is still spinning — the teardown code after it is never reached. -/
theorem threadA_loop_never_exits :
    (∀ s : ThreadAState, (threadALoopBody s).mRunning = s.mRunning) ∧
    threadALoopInit.mRunning = 1 ∧
    (∀ fuel : Nat, threadALoopRun fuel threadALoopInit = none) := by
  refine ⟨fun s => rfl, rfl, ?_⟩
  have key : ∀ (fuel : Nat) (s : ThreadAState),
      s.mRunning = 1 → threadALoopRun fuel s = none := by
    intro fuel
    induction fuel with
    | zero => intro s _; rfl
    | succ n ih =>
        intro s hs
        unfold threadALoopRun
        rw [if_pos (by rw [hs]; decide)]
        exact ih _ (by simp [threadALoopBody, hs])
  exact fun fuel => key fuel threadALoopInit rfl

/-- Witness for C6 at concrete fuel. -/
theorem threadA_loop_never_exits_witness :
    (threadALoopBody ⟨1, 0⟩).mRunning = (⟨1, 0⟩ : ThreadAState).mRunning ∧
    threadALoopRun 100 threadALoopInit = none :=
  ⟨threadA_loop_never_exits.1 ⟨1, 0⟩, threadA_loop_never_exits.2.2 100⟩

/-- C8: for every `LoadShader` call whose compilation fails, the stage
object is deleted immediately, the driver's diagnostic text is retrieved and
reported exactly when the info log is non-empty (`infoLen > 1`, the length
counting the terminator), and the returned handle is 0. -/
theorem LoadShader_compile_failure (env : ShaderCallEnv)
    (hcreate : env.shaderHandle ≠ 0) (hfail : env.compiled = false) :
    (LoadShader env).ret = 0 ∧
    (LoadShader env).deletedShader = true ∧
    ((LoadShader env).msgs ≠ [] ↔ env.infoLogLen > 1) ∧
    (env.infoLogLen > 1 →
      (LoadShader env).msgs = [Diag.compileErrorLog env.infoLog]) := by
  have hres : LoadShader env =
      ⟨0, true,
       if env.infoLogLen > 1 then [Diag.compileErrorLog env.infoLog] else []⟩ := by
    simp only [LoadShader]
    rw [if_neg hcreate, if_pos hfail]
  rw [hres]
  refine ⟨rfl, rfl, ?_, ?_⟩
  · by_cases hlen : env.infoLogLen > 1 <;> simp [hlen]
  · intro hlen
    simp [hlen]

/-- Witness for C8 at a concrete failing compilation. -/
theorem LoadShader_compile_failure_witness :
    (LoadShader ⟨7, false, 20, "0:1 ERROR"⟩).ret = 0 ∧
    (LoadShader ⟨7, false, 20, "0:1 ERROR"⟩).deletedShader = true ∧
    ((LoadShader ⟨7, false, 20, "0:1 ERROR"⟩).msgs ≠ [] ↔ (20 : Int) > 1) ∧
    ((20 : Int) > 1 →
      (LoadShader ⟨7, false, 20, "0:1 ERROR"⟩).msgs =
        [Diag.compileErrorLog "0:1 ERROR"]) :=
  LoadShader_compile_failure ⟨7, false, 20, "0:1 ERROR"⟩ (by decide) rfl

/-- C9 counterexample: the single-context variant's `eglCreateContext`
attribute list requests client version 3 (`es_version = 3`), not 2. -/
theorem offscreen_context_version_cex :
    attribValue Offscreen.contextAttribs EGL_CONTEXT_CLIENT_VERSION = some 3 ∧
    (3 : Int) ≠ 2 := by
  decide

/-- C9 amended: both context creations of the multithreaded variant request
`EGL_CONTEXT_CLIENT_VERSION` 2; the single-context variant's one
`eglCreateContext` requests version 3. -/
theorem context_client_versions :
    attribValue MT.threadA_contextAttribs EGL_CONTEXT_CLIENT_VERSION = some 2 ∧
    attribValue MT.threadB_contextAttribs EGL_CONTEXT_CLIENT_VERSION = some 2 ∧
    attribValue Offscreen.contextAttribs EGL_CONTEXT_CLIENT_VERSION = some 3 := by
  decide

end EGLOff
